import Mathlib

/-!
Shallow embedding of libvirt's domain configuration module
(`src/conf/domain_conf.c`): the domain definition data model, the
ABI-stability checker, the device-info iterator, the post-parse phase, and
the parser/formatter fragments that enforce the invariants under study.

Machine integers are modelled as `Nat`/`Int`, with explicit `% 2^w`
where C overflow matters.  Enumeration values follow the order of the
`VIR_ENUM_IMPL` tables in the source.  Fallible code returns `Option`
(`none` = the C function reported an error), or `Bool` for pure
accept/reject checks.
-/

namespace DomainConf

/-! ### Enumeration constants (codes follow the VIR_ENUM_IMPL tables) -/

/-- virDomainDiskDevice: "disk", "cdrom", "floppy", "lun". -/
def VIR_DOMAIN_DISK_DEVICE_DISK : Nat := 0
def VIR_DOMAIN_DISK_DEVICE_CDROM : Nat := 1
def VIR_DOMAIN_DISK_DEVICE_FLOPPY : Nat := 2
def VIR_DOMAIN_DISK_DEVICE_LUN : Nat := 3

/-- virDomainChrConsoleTarget: "none", "serial", "xen", ... -/
def VIR_DOMAIN_CHR_CONSOLE_TARGET_TYPE_NONE : Nat := 0
def VIR_DOMAIN_CHR_CONSOLE_TARGET_TYPE_SERIAL : Nat := 1

/-- virDomainChrChannelTarget: "none", "guestfwd", "virtio". -/
def VIR_DOMAIN_CHR_CHANNEL_TARGET_TYPE_NONE : Nat := 0
def VIR_DOMAIN_CHR_CHANNEL_TARGET_TYPE_GUESTFWD : Nat := 1
def VIR_DOMAIN_CHR_CHANNEL_TARGET_TYPE_VIRTIO : Nat := 2

/-- virDomainChr (character device source type): "null", ..., "spicevmc". -/
def VIR_DOMAIN_CHR_TYPE_SPICEVMC : Nat := 10

/-- virDomainChrDevice type codes (parallel, serial, console, channel). -/
def VIR_DOMAIN_CHR_DEVICE_TYPE_SERIAL : Nat := 1
def VIR_DOMAIN_CHR_DEVICE_TYPE_CONSOLE : Nat := 2

/-- virDomainControllerType: "ide","fdc","scsi","sata","virtio-serial","ccid". -/
def VIR_DOMAIN_CONTROLLER_TYPE_VIRTIO_SERIAL : Nat := 4

/-- virDomainTimerName: "platform","pit","rtc","hpet","tsc","kvmclock". -/
def VIR_DOMAIN_TIMER_NAME_TSC : Nat := 4

/-- virDomainHostdevMode: "subsystem","capabilities". -/
def VIR_DOMAIN_HOSTDEV_MODE_SUBSYS : Nat := 0

/-- virDomainDevice (device category): "none","disk","lease",... -/
def VIR_DOMAIN_DEVICE_NONE : Nat := 0
def VIR_DOMAIN_DEVICE_DISK : Nat := 1
def VIR_DOMAIN_DEVICE_LEASE : Nat := 2
def VIR_DOMAIN_DEVICE_FS : Nat := 3
def VIR_DOMAIN_DEVICE_NET : Nat := 4
def VIR_DOMAIN_DEVICE_INPUT : Nat := 5
def VIR_DOMAIN_DEVICE_SOUND : Nat := 6
def VIR_DOMAIN_DEVICE_VIDEO : Nat := 7
def VIR_DOMAIN_DEVICE_HOSTDEV : Nat := 8
def VIR_DOMAIN_DEVICE_WATCHDOG : Nat := 9
def VIR_DOMAIN_DEVICE_CONTROLLER : Nat := 10
def VIR_DOMAIN_DEVICE_GRAPHICS : Nat := 11
def VIR_DOMAIN_DEVICE_HUB : Nat := 12
def VIR_DOMAIN_DEVICE_REDIRDEV : Nat := 13
def VIR_DOMAIN_DEVICE_SMARTCARD : Nat := 14
def VIR_DOMAIN_DEVICE_CHR : Nat := 15
def VIR_DOMAIN_DEVICE_MEMBALLOON : Nat := 16
def VIR_DOMAIN_DEVICE_RNG : Nat := 17

/-! ### Device address / info subsystem -/

/-- The tagged union `info->type` + `info->addr` of virDomainDeviceInfo:
address kinds "none", "pci", "drive", "virtio-serial", "ccid", "usb",
"spapr-vio", "virtio-s390", "ccw". -/
inductive VirDomainDeviceAddress where
  | noAddr
  | pci (pciDomain bus slot func multi : Nat)
  | drive (controller bus unit : Nat)
  | vioserial (controller bus port : Nat)
  | ccid (controller slot : Nat)
  | usb (bus : Nat) (port : String)
  | spaprvio (reg : Nat)
  | virtioS390
  | ccw (cssid ssid devno : Nat)
deriving DecidableEq

/-- Numeric code of the address kind (the `info->type` enum value). -/
def VirDomainDeviceAddress.tag : VirDomainDeviceAddress → Nat
  | .noAddr => 0
  | .pci _ _ _ _ _ => 1
  | .drive _ _ _ => 2
  | .vioserial _ _ _ => 3
  | .ccid _ _ => 4
  | .usb _ _ => 5
  | .spaprvio _ => 6
  | .virtioS390 => 7
  | .ccw _ _ _ => 8

/-- virDomainDeviceInfo: address union plus alias and boot-order index. -/
structure VirDomainDeviceInfo where
  addr : VirDomainDeviceAddress := .noAddr
  aliasName : Option String := none
  bootIndex : Nat := 0
deriving DecidableEq

/-! ### Device sub-definitions (fields used by the claims under study) -/

structure VirDomainDiskDef where
  device : Nat := VIR_DOMAIN_DISK_DEVICE_DISK
  bus : Nat := 0
  dst : String := ""
  serial : Option String := none
  readonly : Bool := false
  shared : Bool := false
  info : VirDomainDeviceInfo := {}
deriving DecidableEq

structure VirDomainControllerDef where
  ctrlType : Nat := 0
  idx : Int := 0
  model : Int := -1
  vioserialPorts : Int := -1
  vioserialVectors : Int := -1
  info : VirDomainDeviceInfo := {}
deriving DecidableEq

structure VirDomainFSDef where
  dst : String := ""
  readonly : Bool := false
  info : VirDomainDeviceInfo := {}
deriving DecidableEq

structure VirDomainNetDef where
  mac : List Nat := []
  model : Option String := none
  info : VirDomainDeviceInfo := {}
deriving DecidableEq

structure VirDomainInputDef where
  inputType : Nat := 0
  bus : Nat := 0
  info : VirDomainDeviceInfo := {}
deriving DecidableEq

structure VirDomainSoundDef where
  model : Nat := 0
  info : VirDomainDeviceInfo := {}
deriving DecidableEq

structure VirDomainVideoAccelDef where
  support2d : Nat := 0
  support3d : Nat := 0
deriving DecidableEq

structure VirDomainVideoDef where
  videoType : Nat := 0
  vram : Nat := 0
  heads : Nat := 0
  primary : Bool := false
  accel : Option VirDomainVideoAccelDef := none
  info : VirDomainDeviceInfo := {}
deriving DecidableEq

structure VirDomainHostdevDef where
  mode : Nat := VIR_DOMAIN_HOSTDEV_MODE_SUBSYS
  subsysType : Nat := 0
  info : VirDomainDeviceInfo := {}
deriving DecidableEq

structure VirDomainSmartcardDef where
  info : VirDomainDeviceInfo := {}
deriving DecidableEq

/-- virDomainChrDef: one structure shared by serial, parallel, channel and
console devices.  `targetAddr` stands for the guestfwd socket address
bytes, `sourceType` for `source.type`. -/
structure VirDomainChrDef where
  deviceType : Nat := 0
  targetType : Nat := 0
  targetPort : Int := 0
  targetName : Option String := none
  targetAddr : Option (List Nat) := none
  sourceType : Nat := 0
  info : VirDomainDeviceInfo := {}
deriving DecidableEq

structure VirDomainWatchdogDef where
  model : Nat := 0
  info : VirDomainDeviceInfo := {}
deriving DecidableEq

structure VirDomainMemballoonDef where
  model : Nat := 0
  info : VirDomainDeviceInfo := {}
deriving DecidableEq

structure VirDomainRNGDef where
  model : Nat := 0
  info : VirDomainDeviceInfo := {}
deriving DecidableEq

structure VirDomainHubDef where
  hubType : Nat := 0
  info : VirDomainDeviceInfo := {}
deriving DecidableEq

structure VirDomainRedirFilterUsbDevDef where
  usbClass : Int := -1
  vendor : Int := -1
  product : Int := -1
  version : Int := -1
  allow : Bool := false
deriving DecidableEq

structure VirDomainRedirFilterDef where
  usbdevs : List VirDomainRedirFilterUsbDevDef := []
deriving DecidableEq

structure VirDomainTimerDef where
  name : Nat := 0
  present : Int := -1
  frequency : Nat := 0
  mode : Nat := 0
deriving DecidableEq

/-- Modelled from the spec: virCPUDefIsEqual lives in the CPU-topology
collaborator (`cpu_conf.c`, outside this file's source); the spec treats the
ABI check on it as "CPU topology equality", so the CPU definition carries
the topology fields the domain parser reads and equality is structural. -/
structure VirCPUDef where
  sockets : Nat := 0
  cores : Nat := 0
  threads : Nat := 0
  cellsCpus : Nat := 0
  model : Option String := none
deriving DecidableEq

/-- Modelled from the spec: virSysinfoIsEqual lives in the sysinfo
collaborator (outside this file's source); the spec treats the ABI check on
it as "firmware/sysinfo equality", so equality is structural. -/
structure VirSysinfoDef where
  systemUuid : Option String := none
deriving DecidableEq

structure VirDomainOSDef where
  osType : String := "hvm"
  arch : Nat := 0
  machine : Option String := none
  smbiosMode : Nat := 0
  init : Option String := none
deriving DecidableEq

structure VirDomainMemDef where
  maxBalloon : Nat := 0
  curBalloon : Nat := 0
  hugepageBacked : Bool := false
deriving DecidableEq

/-- virDomainDef: the aggregate domain definition (the fields read by the
operations under study). -/
structure VirDomainDef where
  id : Int := -1
  name : String := ""
  uuid : List Nat := []
  virtType : Nat := 0
  mem : VirDomainMemDef := {}
  vcpus : Nat := 1
  maxvcpus : Nat := 1
  os : VirDomainOSDef := {}
  features : Nat := 0
  clockTimers : List VirDomainTimerDef := []
  cpu : Option VirCPUDef := none
  sysinfo : Option VirSysinfoDef := none
  disks : List VirDomainDiskDef := []
  controllers : List VirDomainControllerDef := []
  fss : List VirDomainFSDef := []
  nets : List VirDomainNetDef := []
  inputs : List VirDomainInputDef := []
  sounds : List VirDomainSoundDef := []
  videos : List VirDomainVideoDef := []
  hostdevs : List VirDomainHostdevDef := []
  smartcards : List VirDomainSmartcardDef := []
  serials : List VirDomainChrDef := []
  parallels : List VirDomainChrDef := []
  channels : List VirDomainChrDef := []
  consoles : List VirDomainChrDef := []
  hubs : List VirDomainHubDef := []
  watchdog : Option VirDomainWatchdogDef := none
  memballoon : Option VirDomainMemballoonDef := none
  rng : Option VirDomainRNGDef := none
  redirfilter : Option VirDomainRedirFilterDef := none
deriving DecidableEq

/-! ### ABI-stability checker (virDomainDefCheckABIStability and helpers) -/

/-- virDomainTimerDefCheckABIStability: name, presence, and for TSC timers
also frequency and mode. -/
def virDomainTimerDefCheckABIStability
    (src dst : VirDomainTimerDef) : Bool :=
  src.name == dst.name &&
  src.present == dst.present &&
  (if src.name == VIR_DOMAIN_TIMER_NAME_TSC then
     src.frequency == dst.frequency && src.mode == dst.mode
   else true)

/-- virDomainDeviceInfoCheckABIStability: the address type must match and,
for PCI / drive / virtio-serial / ccid addresses, the per-kind coordinates
must match (the remaining kinds carry no checked payload in the source's
switch). -/
def virDomainDeviceInfoCheckABIStability
    (src dst : VirDomainDeviceInfo) : Bool :=
  src.addr.tag == dst.addr.tag &&
  (match src.addr, dst.addr with
   | .pci d b s f _, .pci d' b' s' f' _ =>
       d == d' && b == b' && s == s' && f == f'
   | .drive c b u, .drive c' b' u' =>
       c == c' && b == b' && u == u'
   | .vioserial c b p, .vioserial c' b' p' =>
       c == c' && b == b' && p == p'
   | .ccid c s, .ccid c' s' =>
       c == c' && s == s'
   | _, _ => true)

def virDomainDiskDefCheckABIStability
    (src dst : VirDomainDiskDef) : Bool :=
  src.device == dst.device &&
  src.bus == dst.bus &&
  src.dst == dst.dst &&
  src.serial == dst.serial &&
  (src.readonly == dst.readonly && src.shared == dst.shared) &&
  virDomainDeviceInfoCheckABIStability src.info dst.info

def virDomainControllerDefCheckABIStability
    (src dst : VirDomainControllerDef) : Bool :=
  src.ctrlType == dst.ctrlType &&
  src.idx == dst.idx &&
  src.model == dst.model &&
  (if src.ctrlType == VIR_DOMAIN_CONTROLLER_TYPE_VIRTIO_SERIAL then
     src.vioserialPorts == dst.vioserialPorts &&
     src.vioserialVectors == dst.vioserialVectors
   else true) &&
  virDomainDeviceInfoCheckABIStability src.info dst.info

def virDomainFsDefCheckABIStability
    (src dst : VirDomainFSDef) : Bool :=
  src.dst == dst.dst &&
  src.readonly == dst.readonly &&
  virDomainDeviceInfoCheckABIStability src.info dst.info

def virDomainNetDefCheckABIStability
    (src dst : VirDomainNetDef) : Bool :=
  src.mac == dst.mac &&
  src.model == dst.model &&
  virDomainDeviceInfoCheckABIStability src.info dst.info

def virDomainInputDefCheckABIStability
    (src dst : VirDomainInputDef) : Bool :=
  src.inputType == dst.inputType &&
  src.bus == dst.bus &&
  virDomainDeviceInfoCheckABIStability src.info dst.info

def virDomainSoundDefCheckABIStability
    (src dst : VirDomainSoundDef) : Bool :=
  src.model == dst.model &&
  virDomainDeviceInfoCheckABIStability src.info dst.info

def virDomainVideoDefCheckABIStability
    (src dst : VirDomainVideoDef) : Bool :=
  src.videoType == dst.videoType &&
  src.vram == dst.vram &&
  src.heads == dst.heads &&
  !(src.accel.isSome && dst.accel.isNone) &&
  !(src.accel.isNone && dst.accel.isSome) &&
  (match src.accel, dst.accel with
   | some a, some a' => a.support2d == a'.support2d &&
                        a.support3d == a'.support3d
   | _, _ => true) &&
  virDomainDeviceInfoCheckABIStability src.info dst.info

def virDomainHostdevDefCheckABIStability
    (src dst : VirDomainHostdevDef) : Bool :=
  src.mode == dst.mode &&
  !(src.mode == VIR_DOMAIN_HOSTDEV_MODE_SUBSYS &&
    src.subsysType != dst.subsysType) &&
  virDomainDeviceInfoCheckABIStability src.info dst.info

def virDomainSmartcardDefCheckABIStability
    (src dst : VirDomainSmartcardDef) : Bool :=
  virDomainDeviceInfoCheckABIStability src.info dst.info

def virDomainSerialDefCheckABIStability
    (src dst : VirDomainChrDef) : Bool :=
  src.targetPort == dst.targetPort &&
  virDomainDeviceInfoCheckABIStability src.info dst.info

def virDomainParallelDefCheckABIStability
    (src dst : VirDomainChrDef) : Bool :=
  src.targetPort == dst.targetPort &&
  virDomainDeviceInfoCheckABIStability src.info dst.info

def virDomainChannelDefCheckABIStability
    (src dst : VirDomainChrDef) : Bool :=
  src.targetType == dst.targetType &&
  (if src.targetType == VIR_DOMAIN_CHR_CHANNEL_TARGET_TYPE_VIRTIO then
     src.targetName == dst.targetName &&
     !(src.sourceType != dst.sourceType &&
       (src.sourceType == VIR_DOMAIN_CHR_TYPE_SPICEVMC ||
        dst.sourceType == VIR_DOMAIN_CHR_TYPE_SPICEVMC) &&
       src.targetName == none)
   else if src.targetType == VIR_DOMAIN_CHR_CHANNEL_TARGET_TYPE_GUESTFWD then
     src.targetAddr == dst.targetAddr
   else true) &&
  virDomainDeviceInfoCheckABIStability src.info dst.info

def virDomainConsoleDefCheckABIStability
    (src dst : VirDomainChrDef) : Bool :=
  src.targetType == dst.targetType &&
  virDomainDeviceInfoCheckABIStability src.info dst.info

def virDomainWatchdogDefCheckABIStability
    (src dst : VirDomainWatchdogDef) : Bool :=
  src.model == dst.model &&
  virDomainDeviceInfoCheckABIStability src.info dst.info

def virDomainMemballoonDefCheckABIStability
    (src dst : VirDomainMemballoonDef) : Bool :=
  src.model == dst.model &&
  virDomainDeviceInfoCheckABIStability src.info dst.info

/-- virDomainRNGDefCheckABIStability: tolerates both sides absent; one side
absent is a count mismatch; both present compares model and info. -/
def virDomainRNGDefCheckABIStability
    (src dst : Option VirDomainRNGDef) : Bool :=
  match src, dst with
  | none, none => true
  | some s, some d =>
      s.model == d.model &&
      virDomainDeviceInfoCheckABIStability s.info d.info
  | _, _ => false

def virDomainHubDefCheckABIStability
    (src dst : VirDomainHubDef) : Bool :=
  src.hubType == dst.hubType &&
  virDomainDeviceInfoCheckABIStability src.info dst.info

def virDomainRedirFilterUsbDevCheck
    (src dst : VirDomainRedirFilterUsbDevDef) : Bool :=
  src.usbClass == dst.usbClass &&
  src.vendor == dst.vendor &&
  src.product == dst.product &&
  src.version == dst.version &&
  src.allow == dst.allow

/-- virDomainRedirFilterDefCheckABIStability: rule counts, then each rule
pairwise by position. -/
def virDomainRedirFilterDefCheckABIStability
    (src dst : VirDomainRedirFilterDef) : Bool :=
  src.usbdevs.length == dst.usbdevs.length &&
  (src.usbdevs.zip dst.usbdevs).all fun p =>
    virDomainRedirFilterUsbDevCheck p.1 p.2

/-- Modelled from the spec: virCPUDefIsEqual (CPU-topology collaborator,
not under this file's source) — "CPU topology equality"; `NULL` CPUs on
both sides compare equal. -/
def virCPUDefIsEqual (src dst : Option VirCPUDef) : Bool :=
  src == dst

/-- Modelled from the spec: virSysinfoIsEqual (sysinfo collaborator, not
under this file's source) — "firmware/sysinfo equality". -/
def virSysinfoIsEqual (src dst : Option VirSysinfoDef) : Bool :=
  src == dst

/-- Per-device-category list comparison: the source checks the two counts,
then compares element `i` of `src` with element `i` of `dst` (by position). -/
def abiListCheck (f : α → α → Bool) (xs ys : List α) : Bool :=
  xs.length == ys.length &&
  (xs.zip ys).all fun p => f p.1 p.2

/-- Optional-singleton comparison as done inline for watchdog, memballoon
and redirfilter: presence must match, then the per-device comparator runs. -/
def abiOptCheck (f : α → α → Bool) (xs ys : Option α) : Bool :=
  match xs, ys with
  | none, none => true
  | some s, some d => f s d
  | _, _ => false

/-- virDomainDefCheckABIStability: the aggregate comparison, in source
order: virt type, uuid, memory, vcpus, OS identity, features, clock
timers, CPU, sysinfo, then every device list pairwise by position, then
the optional redirfilter / watchdog / memballoon / RNG singletons. -/
def virDomainDefCheckABIStability (src dst : VirDomainDef) : Bool :=
  src.virtType == dst.virtType &&
  src.uuid == dst.uuid &&
  src.mem.maxBalloon == dst.mem.maxBalloon &&
  src.mem.curBalloon == dst.mem.curBalloon &&
  src.mem.hugepageBacked == dst.mem.hugepageBacked &&
  src.vcpus == dst.vcpus &&
  src.maxvcpus == dst.maxvcpus &&
  src.os.osType == dst.os.osType &&
  src.os.arch == dst.os.arch &&
  src.os.machine == dst.os.machine &&
  src.os.smbiosMode == dst.os.smbiosMode &&
  src.features == dst.features &&
  abiListCheck virDomainTimerDefCheckABIStability
    src.clockTimers dst.clockTimers &&
  virCPUDefIsEqual src.cpu dst.cpu &&
  virSysinfoIsEqual src.sysinfo dst.sysinfo &&
  abiListCheck virDomainDiskDefCheckABIStability src.disks dst.disks &&
  abiListCheck virDomainControllerDefCheckABIStability
    src.controllers dst.controllers &&
  abiListCheck virDomainFsDefCheckABIStability src.fss dst.fss &&
  abiListCheck virDomainNetDefCheckABIStability src.nets dst.nets &&
  abiListCheck virDomainInputDefCheckABIStability src.inputs dst.inputs &&
  abiListCheck virDomainSoundDefCheckABIStability src.sounds dst.sounds &&
  abiListCheck virDomainVideoDefCheckABIStability src.videos dst.videos &&
  abiListCheck virDomainHostdevDefCheckABIStability
    src.hostdevs dst.hostdevs &&
  abiListCheck virDomainSmartcardDefCheckABIStability
    src.smartcards dst.smartcards &&
  abiListCheck virDomainSerialDefCheckABIStability src.serials dst.serials &&
  abiListCheck virDomainParallelDefCheckABIStability
    src.parallels dst.parallels &&
  abiListCheck virDomainChannelDefCheckABIStability
    src.channels dst.channels &&
  abiListCheck virDomainConsoleDefCheckABIStability
    src.consoles dst.consoles &&
  abiListCheck virDomainHubDefCheckABIStability src.hubs dst.hubs &&
  abiOptCheck virDomainRedirFilterDefCheckABIStability
    src.redirfilter dst.redirfilter &&
  abiOptCheck virDomainWatchdogDefCheckABIStability
    src.watchdog dst.watchdog &&
  abiOptCheck virDomainMemballoonDefCheckABIStability
    src.memballoon dst.memballoon &&
  virDomainRNGDefCheckABIStability src.rng dst.rng

/-! ### Parser fragments: memory balloon reconciliation (virDomainDefParseXML) -/

/-- VIR_DIV_UP on unsigned long long values: round up to the next multiple,
with the C addition wrapping modulo 2^64. -/
def VIR_DIV_UP (a b : Nat) : Nat := ((a + b - 1) % 2 ^ 64) / b

/-- The `currentMemory` vs `memory` reconciliation in virDomainDefParseXML:
when current exceeds maximum, reject if the two round up to different
4096-KiB multiples, otherwise truncate current down to maximum; a
current of zero defaults to maximum. Returns the resulting
`cur_balloon`, or `none` when the parse is aborted. -/
def virDomainDefParseCurBalloon (curBalloon maxBalloon : Nat) : Option Nat :=
  if curBalloon > maxBalloon then
    if VIR_DIV_UP curBalloon 4096 > VIR_DIV_UP maxBalloon 4096 then
      none
    else
      some maxBalloon
  else if curBalloon == 0 then
    some maxBalloon
  else
    some curBalloon

/-! ### Parser fragments: vCPU counts and CPU topology (virDomainDefParseXML) -/

/-- Result of virXPathULong: the element/attribute is absent, is present but
not an integer, or carries the value `n`. -/
inductive VirXPathULongRes where
  | missing
  | malformed
  | ok (n : Nat)
deriving DecidableEq

/-- The `<vcpu>` maximum-count parse: absent defaults to 1; zero or a value
not fitting an unsigned short is rejected. -/
def virDomainDefParseMaxVcpus : VirXPathULongRes → Option Nat
  | .malformed => none
  | .missing => some 1
  | .ok count =>
      if count == 0 || count % 2 ^ 16 != count then none
      else some count

/-- The `<vcpu current=...>` parse: absent defaults to the maximum; zero, a
value not fitting an unsigned short, or a value above the maximum is
rejected. -/
def virDomainDefParseCurVcpus (maxvcpus : Nat) :
    VirXPathULongRes → Option Nat
  | .malformed => none
  | .missing => some maxvcpus
  | .ok count =>
      if count == 0 || count % 2 ^ 16 != count then none
      else if maxvcpus < count then none
      else some count

/-- The `<cpu>` cross-checks of virDomainDefParseXML: with nonzero sockets
the maximum vCPU count must not exceed sockets*cores*threads, and the NUMA
cell vCPU total must not exceed the maximum either. -/
def virDomainDefCpuTopologyCheck (maxvcpus : Nat) :
    Option VirCPUDef → Bool
  | none => true
  | some cpu =>
      if cpu.sockets != 0 &&
         maxvcpus > cpu.sockets * cpu.cores * cpu.threads then false
      else if cpu.cellsCpus > maxvcpus then false
      else true

/-- The vCPU portion of virDomainDefParseXML: maximum, then current, then
the topology cross-checks; returns `(vcpus, maxvcpus)`. -/
def virDomainDefParseVcpus (maxRaw curRaw : VirXPathULongRes)
    (cpu : Option VirCPUDef) : Option (Nat × Nat) :=
  match virDomainDefParseMaxVcpus maxRaw with
  | none => none
  | some maxvcpus =>
    match virDomainDefParseCurVcpus maxvcpus curRaw with
    | none => none
    | some vcpus =>
      if virDomainDefCpuTopologyCheck maxvcpus cpu then
        some (vcpus, maxvcpus)
      else none

/-! ### Parser fragments: boot ordering -/

/-- The global/per-device conflict check of virDomainDefParseBootXML:
`<os><boot .../></os>` entries may not be combined with per-device
`boot order` attributes (`deviceBoot` counts the devices bearing one).
Returns whether the document is accepted. -/
def virDomainDefParseBootConflict (nOsBoot deviceBoot : Nat) : Bool :=
  if nOsBoot != 0 && deviceBoot != 0 then false else true

/-- virDomainDeviceBootParseXML: the `order` attribute must be a positive
integer whose bit fits the boot bitmap (sized to the number of
boot-order-bearing devices) and whose bit is not yet taken. Returns the
updated bitmap and the parsed 1-based boot index. -/
def virDomainDeviceBootParseXML (bootMap : List Bool) (order : Int) :
    Option (List Bool × Nat) :=
  if order ≤ 0 then none
  else
    let boot := order.toNat
    if bootMap.length ≤ boot - 1 then none
    else if bootMap.getD (boot - 1) false then none
    else some (bootMap.set (boot - 1) true, boot)

/-- Folding virDomainDeviceBootParseXML over the boot-order attributes of
all boot-order-bearing devices, threading the bitmap. -/
def virDomainDefParseBootOrdersGo (bootMap : List Bool) :
    List Int → Option (List Nat)
  | [] => some []
  | o :: os =>
    match virDomainDeviceBootParseXML bootMap o with
    | none => none
    | some (bootMap', b) =>
      match virDomainDefParseBootOrdersGo bootMap' os with
      | none => none
      | some bs => some (b :: bs)

/-- The per-device boot-order pass of virDomainDefParseXML: the bitmap is
created with one bit per boot-order-bearing device (`deviceBoot`), then
each device's `order` attribute is parsed against it. -/
def virDomainDefParseBootOrders (deviceBoot : Nat) (orders : List Int) :
    Option (List Nat) :=
  virDomainDefParseBootOrdersGo (List.replicate deviceBoot false) orders

/-! ### Parser fragments: singleton devices and the primary video -/

/-- The video loop of virDomainDefParseXML: a primary video is inserted at
index 0 and may occur only once; other videos are appended. -/
def virDomainDefParseVideosGo :
    List VirDomainVideoDef → List VirDomainVideoDef → Bool →
    Option (List VirDomainVideoDef)
  | [], acc, _ => some acc
  | v :: rest, acc, primarySeen =>
    if v.primary then
      if primarySeen then none
      else virDomainDefParseVideosGo rest (v :: acc) true
    else
      virDomainDefParseVideosGo rest (acc ++ [v]) primarySeen

def virDomainDefParseVideos (vs : List VirDomainVideoDef) :
    Option (List VirDomainVideoDef) :=
  virDomainDefParseVideosGo vs [] false

/-- The watchdog section of virDomainDefParseXML: more than one
`<watchdog>` node is rejected. -/
def virDomainDefParseWatchdogs (nodes : List VirDomainWatchdogDef) :
    Option (Option VirDomainWatchdogDef) :=
  if nodes.length > 1 then none else some nodes.head?

/-- The memballoon section of virDomainDefParseXML: more than one
`<memballoon>` node is rejected (the virt-type-dependent default device
synthesized when none is present is not modelled). -/
def virDomainDefParseMemballoons (nodes : List VirDomainMemballoonDef) :
    Option (Option VirDomainMemballoonDef) :=
  if nodes.length > 1 then none else some nodes.head?

/-- The RNG section of virDomainDefParseXML: more than one `<rng>` node is
rejected. -/
def virDomainDefParseRNGs (nodes : List VirDomainRNGDef) :
    Option (Option VirDomainRNGDef) :=
  if nodes.length > 1 then none else some nodes.head?

/-- The redirection-filter section of virDomainDefParseXML: more than one
`<redirfilter>` node is rejected. -/
def virDomainDefParseRedirFilters (nodes : List VirDomainRedirFilterDef) :
    Option (Option VirDomainRedirFilterDef) :=
  if nodes.length > 1 then none else some nodes.head?

/-! ### Parser fragments: disk target-name prefixes (virDomainDiskDefParseXML) -/

/-- The C STRPREFIX macro: character-wise comparison of the leading
characters. -/
def STRPFX (target pfx : String) : Bool := pfx.data.isPrefixOf target.data

/-- The target-name checks of virDomainDiskDefParseXML: a floppy target must
start with "fd"; a disk or LUN target must start with one of "hd", "sd",
"vd", "xvd", "ubd". Returns whether the disk element is accepted. -/
def virDomainDiskDefParseTargetCheck (device : Nat) (target : String) :
    Bool :=
  if device == VIR_DOMAIN_DISK_DEVICE_FLOPPY &&
     !(STRPFX target "fd") then false
  else if (device == VIR_DOMAIN_DISK_DEVICE_DISK ||
           device == VIR_DOMAIN_DISK_DEVICE_LUN) &&
          !(STRPFX target "hd") &&
          !(STRPFX target "sd") &&
          !(STRPFX target "vd") &&
          !(STRPFX target "xvd") &&
          !(STRPFX target "ubd") then false
  else true

/-! ### Formatter: flag spaces and the header of virDomainDefFormatInternal -/

/-- Modelled from the spec: the four public formatting flags live in the
public header (outside this file's source); they occupy the low bits of
the flag word, disjoint from the reserved internal range. -/
def VIR_DOMAIN_XML_SECURE : Nat := 1

def VIR_DOMAIN_XML_INACTIVE : Nat := 2

def VIR_DOMAIN_XML_UPDATE_CPU : Nat := 4

def VIR_DOMAIN_XML_MIGRATABLE : Nat := 8

/-- Internal status-persistence flag (1<<16). -/
def VIR_DOMAIN_XML_INTERNAL_STATUS : Nat := 2 ^ 16

/-- Internal status-persistence flag (1<<17). -/
def VIR_DOMAIN_XML_INTERNAL_ACTUAL_NET : Nat := 2 ^ 17

/-- Internal status-persistence flag (1<<18). -/
def VIR_DOMAIN_XML_INTERNAL_PCI_ORIG_STATES : Nat := 2 ^ 18

/-- The public flag set accepted by virDomainDefFormat. -/
def DUMPXML_FLAGS : Nat :=
  VIR_DOMAIN_XML_SECURE |||
  VIR_DOMAIN_XML_INACTIVE |||
  VIR_DOMAIN_XML_UPDATE_CPU |||
  VIR_DOMAIN_XML_MIGRATABLE

/-- Modelled from the spec: the virCheckFlags macro (generic utility
outside this file's source) rejects a call whose 32-bit flag word has any
bit set outside `allowed`. -/
def virCheckFlagsPass (allowed flags : Nat) : Bool :=
  flags &&& ((2 ^ 32 - 1) ^^^ allowed) == 0

/-- The observable head of the formatted document: whether the `id`
attribute is emitted (and with which value), and the flag word that the
rest of the formatting runs under. -/
structure VirDomainFormatHead where
  idAttr : Option Int
  effFlags : Nat
deriving DecidableEq

/-- virDomainDefFormatInternal, up to the `<domain ...>` opening element:
accepts the public flags plus the three internal status flags; a
definition with runtime id -1 forces the inactive flag on, and the `id`
attribute is emitted only when the inactive flag is absent. The rest of
the body formats under the resulting flag word (`effFlags`). -/
def virDomainDefFormatInternal (d : VirDomainDef) (flags : Nat) :
    Option VirDomainFormatHead :=
  if !virCheckFlagsPass
      (DUMPXML_FLAGS |||
       VIR_DOMAIN_XML_INTERNAL_STATUS |||
       VIR_DOMAIN_XML_INTERNAL_ACTUAL_NET |||
       VIR_DOMAIN_XML_INTERNAL_PCI_ORIG_STATES) flags then none
  else
    let flags := if d.id == -1 then flags ||| VIR_DOMAIN_XML_INACTIVE
                 else flags
    some { idAttr := if flags &&& VIR_DOMAIN_XML_INACTIVE == 0 then
                       some d.id
                     else none,
           effFlags := flags }

/-- virDomainDefFormat: the public entry point accepts only DUMPXML_FLAGS
and otherwise fails without producing output. -/
def virDomainDefFormat (d : VirDomainDef) (flags : Nat) :
    Option VirDomainFormatHead :=
  if !virCheckFlagsPass DUMPXML_FLAGS flags then none
  else virDomainDefFormatInternal d flags

/-! ### Device-info iteration (virDomainDeviceInfoIterateInternal) -/

/-- One visit made by the iterator: the device-category code the source
stores in `device.type` before each loop, and the visited DeviceInfo. -/
structure DeviceVisit where
  devType : Nat
  info : VirDomainDeviceInfo
deriving DecidableEq

/-- One C `for` loop of the iterator: call the visitor on each element in
order, returning `false` and stopping at the first visitor failure; also
returns the visits actually made. -/
def visitLoop (cb : DeviceVisit → Bool) :
    List DeviceVisit → Bool × List DeviceVisit
  | [] => (true, [])
  | v :: vs =>
    if cb v then
      let r := visitLoop cb vs
      (r.1, v :: r.2)
    else (false, [v])

/-- Sequencing of two iterator loops: the second runs only if the first
did not fail. -/
def seqVisit (acc next : Bool × List DeviceVisit) :
    Bool × List DeviceVisit :=
  if acc.1 then (next.1, acc.2 ++ next.2) else acc

/-- The console loop of the iterator, with its skip rule: when `all` is
false and the first console is a back-compat alias for a serial port
(target type serial or unset, OS type "hvm"), it is skipped. -/
def consoleVisitList (d : VirDomainDef) (all : Bool) : List DeviceVisit :=
  match d.consoles with
  | [] => []
  | c :: rest =>
    if !all &&
       (c.targetType == VIR_DOMAIN_CHR_CONSOLE_TARGET_TYPE_SERIAL ||
        c.targetType == VIR_DOMAIN_CHR_CONSOLE_TARGET_TYPE_NONE) &&
       d.os.osType == "hvm" then
      rest.map fun x => ⟨VIR_DOMAIN_DEVICE_CHR, x.info⟩
    else
      (c :: rest).map fun x => ⟨VIR_DOMAIN_DEVICE_CHR, x.info⟩

/-- virDomainDeviceInfoIterateInternal: the per-category loops in source
order (disks, nets, sounds, hostdevs, videos, controllers, smartcards,
serials, parallels, channels, consoles, inputs, fss, watchdog,
memballoon, rng, hubs), each aborted by the first visitor failure.
Returns whether every visit succeeded, and the visits made in order. -/
def virDomainDeviceInfoIterateInternal (d : VirDomainDef)
    (cb : DeviceVisit → Bool) (all : Bool) : Bool × List DeviceVisit :=
  let r := visitLoop cb
    (d.disks.map fun x => ⟨VIR_DOMAIN_DEVICE_DISK, x.info⟩)
  let r := seqVisit r (visitLoop cb
    (d.nets.map fun x => ⟨VIR_DOMAIN_DEVICE_NET, x.info⟩))
  let r := seqVisit r (visitLoop cb
    (d.sounds.map fun x => ⟨VIR_DOMAIN_DEVICE_SOUND, x.info⟩))
  let r := seqVisit r (visitLoop cb
    (d.hostdevs.map fun x => ⟨VIR_DOMAIN_DEVICE_HOSTDEV, x.info⟩))
  let r := seqVisit r (visitLoop cb
    (d.videos.map fun x => ⟨VIR_DOMAIN_DEVICE_VIDEO, x.info⟩))
  let r := seqVisit r (visitLoop cb
    (d.controllers.map fun x => ⟨VIR_DOMAIN_DEVICE_CONTROLLER, x.info⟩))
  let r := seqVisit r (visitLoop cb
    (d.smartcards.map fun x => ⟨VIR_DOMAIN_DEVICE_SMARTCARD, x.info⟩))
  let r := seqVisit r (visitLoop cb
    (d.serials.map fun x => ⟨VIR_DOMAIN_DEVICE_CHR, x.info⟩))
  let r := seqVisit r (visitLoop cb
    (d.parallels.map fun x => ⟨VIR_DOMAIN_DEVICE_CHR, x.info⟩))
  let r := seqVisit r (visitLoop cb
    (d.channels.map fun x => ⟨VIR_DOMAIN_DEVICE_CHR, x.info⟩))
  let r := seqVisit r (visitLoop cb (consoleVisitList d all))
  let r := seqVisit r (visitLoop cb
    (d.inputs.map fun x => ⟨VIR_DOMAIN_DEVICE_INPUT, x.info⟩))
  let r := seqVisit r (visitLoop cb
    (d.fss.map fun x => ⟨VIR_DOMAIN_DEVICE_FS, x.info⟩))
  let r := seqVisit r (visitLoop cb
    (d.watchdog.toList.map fun x => ⟨VIR_DOMAIN_DEVICE_WATCHDOG, x.info⟩))
  let r := seqVisit r (visitLoop cb
    (d.memballoon.toList.map fun x => ⟨VIR_DOMAIN_DEVICE_MEMBALLOON, x.info⟩))
  let r := seqVisit r (visitLoop cb
    (d.rng.toList.map fun x => ⟨VIR_DOMAIN_DEVICE_RNG, x.info⟩))
  let r := seqVisit r (visitLoop cb
    (d.hubs.map fun x => ⟨VIR_DOMAIN_DEVICE_HUB, x.info⟩))
  r

/-- The documented visiting order, written out as one flat list: disks,
network interfaces, sound, host devices, video, controllers, smartcards,
serial, parallel, channel, console (with the first-console skip rule),
input, filesystem, watchdog, memory balloon, RNG, hub. -/
def deviceInfoVisitOrder (d : VirDomainDef) (all : Bool) :
    List DeviceVisit :=
  (d.disks.map fun x => ⟨VIR_DOMAIN_DEVICE_DISK, x.info⟩) ++
  (d.nets.map fun x => ⟨VIR_DOMAIN_DEVICE_NET, x.info⟩) ++
  (d.sounds.map fun x => ⟨VIR_DOMAIN_DEVICE_SOUND, x.info⟩) ++
  (d.hostdevs.map fun x => ⟨VIR_DOMAIN_DEVICE_HOSTDEV, x.info⟩) ++
  (d.videos.map fun x => ⟨VIR_DOMAIN_DEVICE_VIDEO, x.info⟩) ++
  (d.controllers.map fun x => ⟨VIR_DOMAIN_DEVICE_CONTROLLER, x.info⟩) ++
  (d.smartcards.map fun x => ⟨VIR_DOMAIN_DEVICE_SMARTCARD, x.info⟩) ++
  (d.serials.map fun x => ⟨VIR_DOMAIN_DEVICE_CHR, x.info⟩) ++
  (d.parallels.map fun x => ⟨VIR_DOMAIN_DEVICE_CHR, x.info⟩) ++
  (d.channels.map fun x => ⟨VIR_DOMAIN_DEVICE_CHR, x.info⟩) ++
  consoleVisitList d all ++
  (d.inputs.map fun x => ⟨VIR_DOMAIN_DEVICE_INPUT, x.info⟩) ++
  (d.fss.map fun x => ⟨VIR_DOMAIN_DEVICE_FS, x.info⟩) ++
  (d.watchdog.toList.map fun x => ⟨VIR_DOMAIN_DEVICE_WATCHDOG, x.info⟩) ++
  (d.memballoon.toList.map fun x => ⟨VIR_DOMAIN_DEVICE_MEMBALLOON, x.info⟩) ++
  (d.rng.toList.map fun x => ⟨VIR_DOMAIN_DEVICE_RNG, x.info⟩) ++
  (d.hubs.map fun x => ⟨VIR_DOMAIN_DEVICE_HUB, x.info⟩)

/-! ### Post-parse phase (virDomainDefPostParse) -/

/-- An invocation made by the post-parse phase, for stating call-order
properties: the driver's whole-definition callback, the per-device
callback broadcast (one event per visited device), and the built-in
internal pass. -/
inductive PPEvent where
  | domainCB
  | deviceCB (v : DeviceVisit)
  | internalPass
deriving DecidableEq

/-- virDomainDefPostParseInternal, success/failure outcome: a container
("exe") OS needs an init path; in the hvm first-console-as-serial
back-compat case, no console after the first may be of target type
serial. The serial/console rewriting the pass performs on success is not
modelled (no stated property depends on the rewritten definition). -/
def virDomainDefPostParseInternal (d : VirDomainDef) : Bool :=
  if d.os.osType == "exe" && d.os.init == none then false
  else
    match d.consoles with
    | [] => true
    | c :: rest =>
      if d.os.osType == "hvm" &&
         (c.targetType == VIR_DOMAIN_CHR_CONSOLE_TARGET_TYPE_SERIAL ||
          c.targetType == VIR_DOMAIN_CHR_CONSOLE_TARGET_TYPE_NONE) then
        !(rest.any fun cons =>
            cons.targetType == VIR_DOMAIN_CHR_CONSOLE_TARGET_TYPE_SERIAL)
      else true

/-- virDomainDeviceDefPostParseInternal always succeeds (it only rewrites
a console's unset target type to serial). -/
def virDomainDeviceDefPostParseInternal (_v : DeviceVisit) : Bool := true

/-- virDomainDeviceDefPostParse: the driver's per-device callback (when
supplied) runs first and its failure aborts; then the built-in per-device
pass. -/
def virDomainDeviceDefPostParse
    (deviceCB : Option (VirDomainDef → DeviceVisit → Bool))
    (d : VirDomainDef) (v : DeviceVisit) : Bool :=
  match deviceCB with
  | some f =>
      if f d v then virDomainDeviceDefPostParseInternal v else false
  | none => virDomainDeviceDefPostParseInternal v

/-- The device broadcast plus the final internal pass of
virDomainDefPostParse, instrumented with the invocation trace. -/
def virDomainDefPostParseDevicesAndInternal
    (deviceCB : Option (VirDomainDef → DeviceVisit → Bool))
    (d : VirDomainDef) : Bool × List PPEvent :=
  let r := virDomainDeviceInfoIterateInternal d
    (virDomainDeviceDefPostParse deviceCB d) true
  if r.1 then
    (virDomainDefPostParseInternal d,
     r.2.map PPEvent.deviceCB ++ [PPEvent.internalPass])
  else
    (false, r.2.map PPEvent.deviceCB)

/-- virDomainDefPostParse: first the driver's whole-definition callback
(aborting on failure), then the per-device callback broadcast over every
device (`all = true`), then the built-in internal pass. Returns the
overall outcome and the invocation trace in order. -/
def virDomainDefPostParse
    (domainCB : Option (VirDomainDef → Bool))
    (deviceCB : Option (VirDomainDef → DeviceVisit → Bool))
    (d : VirDomainDef) : Bool × List PPEvent :=
  match domainCB with
  | some f =>
    if f d then
      let r := virDomainDefPostParseDevicesAndInternal deviceCB d
      (r.1, PPEvent.domainCB :: r.2)
    else (false, [PPEvent.domainCB])
  | none => virDomainDefPostParseDevicesAndInternal deviceCB d

/-! ### Auxiliary definitions for stating call-order properties -/

/-- Whether a post-parse event is a per-device callback invocation. -/
def isDeviceCBEvent : PPEvent → Bool
  | .deviceCB _ => true
  | _ => false

/-- The ordering asserted by the specification sentence under study: in
the post-parse invocation trace, every per-device callback invocation
occurs before the whole-definition callback invocation. -/
def devicesPrecedeDomainCB (tr : List PPEvent) : Prop :=
  ∀ v : DeviceVisit, PPEvent.deviceCB v ∈ tr → PPEvent.domainCB ∈ tr →
    tr.indexOf (PPEvent.deviceCB v) < tr.indexOf PPEvent.domainCB

/-- A small concrete domain definition: one disk, two consoles. -/
def sampleDomainDef : VirDomainDef :=
  { disks := [{}], consoles := [{}, {}] }

/-! ### Reflexivity of the per-device ABI comparators -/

theorem virDomainDeviceInfoCheckABIStability_refl
    (i : VirDomainDeviceInfo) :
    virDomainDeviceInfoCheckABIStability i i = true := by
  cases h : i.addr <;>
    simp [virDomainDeviceInfoCheckABIStability, h]

theorem virDomainTimerDefCheckABIStability_refl (t : VirDomainTimerDef) :
    virDomainTimerDefCheckABIStability t t = true := by
  simp [virDomainTimerDefCheckABIStability]

theorem virDomainDiskDefCheckABIStability_refl (x : VirDomainDiskDef) :
    virDomainDiskDefCheckABIStability x x = true := by
  simp [virDomainDiskDefCheckABIStability,
        virDomainDeviceInfoCheckABIStability_refl]

theorem virDomainControllerDefCheckABIStability_refl
    (x : VirDomainControllerDef) :
    virDomainControllerDefCheckABIStability x x = true := by
  simp [virDomainControllerDefCheckABIStability,
        virDomainDeviceInfoCheckABIStability_refl]

theorem virDomainFsDefCheckABIStability_refl (x : VirDomainFSDef) :
    virDomainFsDefCheckABIStability x x = true := by
  simp [virDomainFsDefCheckABIStability,
        virDomainDeviceInfoCheckABIStability_refl]

theorem virDomainNetDefCheckABIStability_refl (x : VirDomainNetDef) :
    virDomainNetDefCheckABIStability x x = true := by
  simp [virDomainNetDefCheckABIStability,
        virDomainDeviceInfoCheckABIStability_refl]

theorem virDomainInputDefCheckABIStability_refl (x : VirDomainInputDef) :
    virDomainInputDefCheckABIStability x x = true := by
  simp [virDomainInputDefCheckABIStability,
        virDomainDeviceInfoCheckABIStability_refl]

theorem virDomainSoundDefCheckABIStability_refl (x : VirDomainSoundDef) :
    virDomainSoundDefCheckABIStability x x = true := by
  simp [virDomainSoundDefCheckABIStability,
        virDomainDeviceInfoCheckABIStability_refl]

theorem virDomainVideoDefCheckABIStability_refl (x : VirDomainVideoDef) :
    virDomainVideoDefCheckABIStability x x = true := by
  cases h : x.accel <;>
    simp [virDomainVideoDefCheckABIStability, h,
          virDomainDeviceInfoCheckABIStability_refl]

theorem virDomainHostdevDefCheckABIStability_refl
    (x : VirDomainHostdevDef) :
    virDomainHostdevDefCheckABIStability x x = true := by
  simp [virDomainHostdevDefCheckABIStability,
        virDomainDeviceInfoCheckABIStability_refl]

theorem virDomainSmartcardDefCheckABIStability_refl
    (x : VirDomainSmartcardDef) :
    virDomainSmartcardDefCheckABIStability x x = true := by
  simp [virDomainSmartcardDefCheckABIStability,
        virDomainDeviceInfoCheckABIStability_refl]

theorem virDomainSerialDefCheckABIStability_refl (x : VirDomainChrDef) :
    virDomainSerialDefCheckABIStability x x = true := by
  simp [virDomainSerialDefCheckABIStability,
        virDomainDeviceInfoCheckABIStability_refl]

theorem virDomainParallelDefCheckABIStability_refl (x : VirDomainChrDef) :
    virDomainParallelDefCheckABIStability x x = true := by
  simp [virDomainParallelDefCheckABIStability,
        virDomainDeviceInfoCheckABIStability_refl]

theorem virDomainChannelDefCheckABIStability_refl (x : VirDomainChrDef) :
    virDomainChannelDefCheckABIStability x x = true := by
  simp [virDomainChannelDefCheckABIStability,
        virDomainDeviceInfoCheckABIStability_refl]

theorem virDomainConsoleDefCheckABIStability_refl (x : VirDomainChrDef) :
    virDomainConsoleDefCheckABIStability x x = true := by
  simp [virDomainConsoleDefCheckABIStability,
        virDomainDeviceInfoCheckABIStability_refl]

theorem virDomainWatchdogDefCheckABIStability_refl
    (x : VirDomainWatchdogDef) :
    virDomainWatchdogDefCheckABIStability x x = true := by
  simp [virDomainWatchdogDefCheckABIStability,
        virDomainDeviceInfoCheckABIStability_refl]

theorem virDomainMemballoonDefCheckABIStability_refl
    (x : VirDomainMemballoonDef) :
    virDomainMemballoonDefCheckABIStability x x = true := by
  simp [virDomainMemballoonDefCheckABIStability,
        virDomainDeviceInfoCheckABIStability_refl]

theorem virDomainRNGDefCheckABIStability_refl
    (x : Option VirDomainRNGDef) :
    virDomainRNGDefCheckABIStability x x = true := by
  cases x <;>
    simp [virDomainRNGDefCheckABIStability,
          virDomainDeviceInfoCheckABIStability_refl]

theorem virDomainHubDefCheckABIStability_refl (x : VirDomainHubDef) :
    virDomainHubDefCheckABIStability x x = true := by
  simp [virDomainHubDefCheckABIStability,
        virDomainDeviceInfoCheckABIStability_refl]

theorem virDomainRedirFilterDefCheckABIStability_refl
    (x : VirDomainRedirFilterDef) :
    virDomainRedirFilterDefCheckABIStability x x = true := by
  unfold virDomainRedirFilterDefCheckABIStability
  induction x.usbdevs with
  | nil => simp
  | cons y ys ih =>
    simp [virDomainRedirFilterUsbDevCheck] at *
    exact ih

theorem zip_self_all (f : α → α → Bool)
    (h : ∀ a, f a a = true) (xs : List α) :
    ((xs.zip xs).all fun p => f p.1 p.2) = true := by
  induction xs with
  | nil => simp
  | cons x xs ih => simp [List.zip_cons_cons, h, ih]

theorem abiListCheck_refl (f : α → α → Bool)
    (h : ∀ a, f a a = true) (xs : List α) :
    abiListCheck f xs xs = true := by
  simp [abiListCheck, zip_self_all f h xs]

theorem abiOptCheck_refl (f : α → α → Bool)
    (h : ∀ a, f a a = true) (o : Option α) :
    abiOptCheck f o o = true := by
  cases o <;> simp [abiOptCheck, h]

/-- C1: the ABI-stability comparison is reflexive: for every domain
definition `d` (over all device lists, memory sizes, vCPU counts, clock
timers, and the optional watchdog / memballoon / RNG / redirfilter
singletons, present or absent), `virDomainDefCheckABIStability d d`
returns true. -/
theorem virDomainDefCheckABIStability_refl (d : VirDomainDef) :
    virDomainDefCheckABIStability d d = true := by
  simp [virDomainDefCheckABIStability, virCPUDefIsEqual, virSysinfoIsEqual,
        virDomainRNGDefCheckABIStability_refl,
        abiListCheck_refl _ virDomainTimerDefCheckABIStability_refl,
        abiListCheck_refl _ virDomainDiskDefCheckABIStability_refl,
        abiListCheck_refl _ virDomainControllerDefCheckABIStability_refl,
        abiListCheck_refl _ virDomainFsDefCheckABIStability_refl,
        abiListCheck_refl _ virDomainNetDefCheckABIStability_refl,
        abiListCheck_refl _ virDomainInputDefCheckABIStability_refl,
        abiListCheck_refl _ virDomainSoundDefCheckABIStability_refl,
        abiListCheck_refl _ virDomainVideoDefCheckABIStability_refl,
        abiListCheck_refl _ virDomainHostdevDefCheckABIStability_refl,
        abiListCheck_refl _ virDomainSmartcardDefCheckABIStability_refl,
        abiListCheck_refl _ virDomainSerialDefCheckABIStability_refl,
        abiListCheck_refl _ virDomainParallelDefCheckABIStability_refl,
        abiListCheck_refl _ virDomainChannelDefCheckABIStability_refl,
        abiListCheck_refl _ virDomainConsoleDefCheckABIStability_refl,
        abiListCheck_refl _ virDomainHubDefCheckABIStability_refl,
        abiOptCheck_refl _ virDomainRedirFilterDefCheckABIStability_refl,
        abiOptCheck_refl _ virDomainWatchdogDefCheckABIStability_refl,
        abiOptCheck_refl _ virDomainMemballoonDefCheckABIStability_refl]

/-! ### Memory balloon reconciliation: invariant and clamp/reject rule -/

/-- C2: whenever the parser accepts a document, the resulting current
balloon is at most the maximum balloon; and when the parsed current
exceeds the maximum (with the 64-bit round-up not overflowing), the
parser silently clamps current down to maximum exactly when both values
round up to the same 4096-KiB multiple, and rejects the document as
inconsistent otherwise. -/
theorem virDomainDefParseCurBalloon_spec (cur maxB : Nat) :
    (∀ r, virDomainDefParseCurBalloon cur maxB = some r → r ≤ maxB) ∧
    (cur > maxB → cur + 4095 < 2 ^ 64 →
      ((VIR_DIV_UP cur 4096 = VIR_DIV_UP maxB 4096 →
          virDomainDefParseCurBalloon cur maxB = some maxB) ∧
       (VIR_DIV_UP cur 4096 ≠ VIR_DIV_UP maxB 4096 →
          virDomainDefParseCurBalloon cur maxB = none))) := by
  constructor
  · intro r h
    unfold virDomainDefParseCurBalloon at h
    split_ifs at h with h1 h2 h3 <;> simp_all <;> try omega
  · intro hgt hov
    constructor
    · intro heq
      unfold virDomainDefParseCurBalloon
      rw [if_pos hgt, if_neg (by omega)]
    · intro hne
      have hmono : VIR_DIV_UP maxB 4096 ≤ VIR_DIV_UP cur 4096 := by
        unfold VIR_DIV_UP
        rw [Nat.mod_eq_of_lt (by omega), Nat.mod_eq_of_lt (by omega)]
        exact Nat.div_le_div_right (by omega)
      unfold virDomainDefParseCurBalloon
      rw [if_pos hgt, if_pos (by omega)]

theorem virDomainDefParseCurBalloon_spec_witness :
    (4095 : Nat) > 4000 ∧ 4095 + 4095 < 2 ^ 64 ∧
    VIR_DIV_UP 4095 4096 = VIR_DIV_UP 4000 4096 ∧
    virDomainDefParseCurBalloon 4095 4000 = some 4000 :=
  ⟨by decide, by decide, by decide,
   ((virDomainDefParseCurBalloon_spec 4095 4000).2 (by decide)
     (by decide)).1 (by decide)⟩

/-! ### vCPU bounds -/

theorem virDomainDefParseMaxVcpus_bounds (r : VirXPathULongRes) (m : Nat)
    (h : virDomainDefParseMaxVcpus r = some m) :
    1 ≤ m ∧ m ≤ 65535 := by
  cases r with
  | missing => simp [virDomainDefParseMaxVcpus] at h; omega
  | malformed => simp [virDomainDefParseMaxVcpus] at h
  | ok count =>
    simp [virDomainDefParseMaxVcpus] at h
    obtain ⟨⟨hz, hfit⟩, hm⟩ := h
    have : count % 2 ^ 16 < 2 ^ 16 := Nat.mod_lt _ (by norm_num)
    omega

theorem virDomainDefParseCurVcpus_bounds (maxv : Nat)
    (hm : 1 ≤ maxv) (r : VirXPathULongRes) (v : Nat)
    (h : virDomainDefParseCurVcpus maxv r = some v) :
    1 ≤ v ∧ v ≤ maxv := by
  cases r with
  | missing => simp [virDomainDefParseCurVcpus] at h; omega
  | malformed => simp [virDomainDefParseCurVcpus] at h
  | ok count =>
    simp [virDomainDefParseCurVcpus] at h
    obtain ⟨⟨hz, _⟩, hle, hv⟩ := h
    omega

/-- C3: every accepted definition satisfies
`1 <= vcpus <= maxvcpus <= 65535` (zero counts and counts not fitting an
unsigned short are rejected, as is a current count above the maximum),
and when a CPU topology with nonzero sockets is present,
`maxvcpus <= sockets*cores*threads`. -/
theorem virDomainDefParseVcpus_bounds (maxRaw curRaw : VirXPathULongRes)
    (cpu : Option VirCPUDef) (v m : Nat)
    (h : virDomainDefParseVcpus maxRaw curRaw cpu = some (v, m)) :
    1 ≤ v ∧ v ≤ m ∧ m ≤ 65535 ∧
    (∀ c, cpu = some c → c.sockets ≠ 0 →
      m ≤ c.sockets * c.cores * c.threads) := by
  unfold virDomainDefParseVcpus at h
  cases hmax : virDomainDefParseMaxVcpus maxRaw with
  | none => simp [hmax] at h
  | some maxv =>
    simp only [hmax] at h
    obtain ⟨hm1, hm2⟩ := virDomainDefParseMaxVcpus_bounds maxRaw maxv hmax
    cases hcur : virDomainDefParseCurVcpus maxv curRaw with
    | none => simp [hcur] at h
    | some vc =>
      simp only [hcur] at h
      obtain ⟨hv1, hv2⟩ :=
        virDomainDefParseCurVcpus_bounds maxv hm1 curRaw vc hcur
      by_cases htop : virDomainDefCpuTopologyCheck maxv cpu = true
      · rw [if_pos htop] at h
        simp only [Option.some.injEq, Prod.mk.injEq] at h
        obtain ⟨hveq, hmeq⟩ := h
        subst hveq; subst hmeq
        refine ⟨hv1, hv2, hm2, ?_⟩
        intro c hc hsock
        subst hc
        unfold virDomainDefCpuTopologyCheck at htop
        simp only [] at htop
        split_ifs at htop with h1 h2
        simp at h1
        omega
      · rw [if_neg htop] at h
        exact absurd h (by simp)

theorem virDomainDefParseVcpus_bounds_witness :
    virDomainDefParseVcpus (.ok 4) (.ok 2)
      (some ⟨1, 2, 2, 0, none⟩) = some (2, 4) ∧ (2 : Nat) ≤ 4 :=
  ⟨by decide,
   (virDomainDefParseVcpus_bounds (.ok 4) (.ok 2)
     (some ⟨1, 2, 2, 0, none⟩) 2 4 (by decide)).2.1⟩

/-! ### Boot ordering: contiguity and uniqueness -/

theorem getD_set_self (l : List Bool) (i : Nat) (a : Bool)
    (h : i < l.length) : (l.set i a).getD i false = a := by
  induction l generalizing i with
  | nil => simp at h
  | cons x xs ih =>
    cases i with
    | zero => simp
    | succ j =>
      simp only [List.set, List.getD_cons_succ]
      exact ih j (by simpa using h)

theorem getD_set_ne (l : List Bool) (i j : Nat) (a : Bool)
    (h : i ≠ j) : (l.set i a).getD j false = l.getD j false := by
  induction l generalizing i j with
  | nil => simp
  | cons x xs ih =>
    cases i with
    | zero =>
      cases j with
      | zero => exact absurd rfl h
      | succ j' => simp
    | succ i' =>
      cases j with
      | zero => simp
      | succ j' =>
        simp only [List.set, List.getD_cons_succ]
        exact ih i' j' (by omega)

/-- Invariant of the boot-order fold: the accepted indices are 1-based,
fit the bitmap, are pairwise distinct, and their bits were all clear in
the starting bitmap. -/
theorem virDomainDefParseBootOrdersGo_spec (orders : List Int) :
    ∀ (bootMap : List Bool) (res : List Nat),
    virDomainDefParseBootOrdersGo bootMap orders = some res →
    res.length = orders.length ∧ res.Nodup ∧
    (∀ k ∈ res, 1 ≤ k ∧ k ≤ bootMap.length ∧
      bootMap.getD (k - 1) false = false) := by
  induction orders with
  | nil =>
    intro bootMap res h
    simp only [virDomainDefParseBootOrdersGo, Option.some.injEq] at h
    subst h
    exact ⟨rfl, List.nodup_nil, by simp⟩
  | cons o os ih =>
    intro bootMap res h
    unfold virDomainDefParseBootOrdersGo at h
    cases hone : virDomainDeviceBootParseXML bootMap o with
    | none => simp [hone] at h
    | some pr =>
      obtain ⟨m', b⟩ := pr
      simp only [hone] at h
      cases hrest : virDomainDefParseBootOrdersGo m' os with
      | none => simp [hrest] at h
      | some bs =>
        simp only [hrest, Option.some.injEq] at h
        subst h
        simp only [virDomainDeviceBootParseXML] at hone
        split_ifs at hone with h1 h2 h3
        simp only [Option.some.injEq, Prod.mk.injEq] at hone
        obtain ⟨hm', hb⟩ := hone
        subst hm'; subst hb
        obtain ⟨hlen, hnd, hmem⟩ := ih _ bs hrest
        have hblen : o.toNat - 1 < bootMap.length := by omega
        have hbpos : 1 ≤ o.toNat := by omega
        have hmaplen :
            (bootMap.set (o.toNat - 1) true).length = bootMap.length := by
          simp
        refine ⟨by simp [hlen], ?_, ?_⟩
        · refine List.nodup_cons.mpr ⟨?_, hnd⟩
          intro hin
          obtain ⟨_, _, hclear⟩ := hmem _ hin
          rw [getD_set_self bootMap _ true hblen] at hclear
          exact Bool.true_eq_false ▸ hclear
        · intro k hk
          rcases List.mem_cons.mp hk with hk | hk
          · subst hk
            exact ⟨hbpos, by omega, by simpa using h3⟩
          · obtain ⟨hk1, hk2, hkclear⟩ := hmem _ hk
            rw [hmaplen] at hk2
            refine ⟨hk1, hk2, ?_⟩
            by_cases hij : o.toNat - 1 = k - 1
            · rw [hij] at hblen hkclear
              rw [getD_set_self bootMap _ true hblen] at hkclear
              exact absurd hkclear (by simp)
            · rw [getD_set_ne bootMap _ _ true hij] at hkclear
              exact hkclear

/-- C4: a document combining global os/boot entries with per-device boot
order attributes is rejected; and for an accepted per-device boot
ordering over `n` boot-order-bearing devices (the bitmap is sized to the
device count, each value may be set only once), the parsed boot indices
are exactly the set {1, ..., n}, with no gaps or duplicates. -/
theorem virDomainBootOrder_spec :
    (∀ nOsBoot deviceBoot : Nat, nOsBoot ≠ 0 → deviceBoot ≠ 0 →
      virDomainDefParseBootConflict nOsBoot deviceBoot = false) ∧
    (∀ (n : Nat) (orders : List Int) (res : List Nat),
      orders.length = n →
      virDomainDefParseBootOrders n orders = some res →
      res.Nodup ∧ ∀ k, k ∈ res ↔ (1 ≤ k ∧ k ≤ n)) := by
  constructor
  · intro nOsBoot deviceBoot h1 h2
    simp [virDomainDefParseBootConflict, h1, h2]
  · intro n orders res hlen h
    obtain ⟨hrlen, hnd, hmem⟩ :=
      virDomainDefParseBootOrdersGo_spec orders _ res h
    have hlenn : res.length = n := by simpa [hlen] using hrlen
    have hsub : res.toFinset ⊆ Finset.Icc 1 n := by
      intro k hk
      obtain ⟨hk1, hk2, _⟩ := hmem k (List.mem_toFinset.mp hk)
      simp only [List.length_replicate] at hk2
      exact Finset.mem_Icc.mpr ⟨hk1, hk2⟩
    have hcard : res.toFinset.card = n := by
      rw [List.toFinset_card_of_nodup hnd, hlenn]
    have hset : res.toFinset = Finset.Icc 1 n := by
      refine Finset.eq_of_subset_of_card_le hsub ?_
      rw [hcard, Nat.card_Icc]
      omega
    refine ⟨hnd, ?_⟩
    intro k
    rw [← List.mem_toFinset, hset, Finset.mem_Icc]

theorem virDomainBootOrder_spec_witness :
    virDomainDefParseBootConflict 1 1 = false ∧
    virDomainDefParseBootOrders 2 [2, 1] = some [2, 1] ∧
    ([2, 1] : List Nat).Nodup :=
  ⟨virDomainBootOrder_spec.1 1 1 (by decide) (by decide),
   by decide,
   (virDomainBootOrder_spec.2 2 [2, 1] [2, 1] rfl (by decide)).1⟩

/-! ### Singleton devices and the primary video -/

/-- Invariant of the video loop: acceptance requires at most one primary
among the remaining videos (none at all once one was seen), and the
number of primaries in the result is the number already accumulated plus
the number remaining. -/
theorem virDomainDefParseVideosGo_spec (vs : List VirDomainVideoDef) :
    ∀ (acc : List VirDomainVideoDef) (seen : Bool)
      (out : List VirDomainVideoDef),
    virDomainDefParseVideosGo vs acc seen = some out →
    vs.countP (fun v => v.primary) + seen.toNat ≤ 1 ∧
    out.countP (fun v => v.primary) =
      acc.countP (fun v => v.primary) + vs.countP (fun v => v.primary) := by
  induction vs with
  | nil =>
    intro acc seen out h
    simp only [virDomainDefParseVideosGo, Option.some.injEq] at h
    subst h
    cases seen <;> simp
  | cons v rest ih =>
    intro acc seen out h
    unfold virDomainDefParseVideosGo at h
    by_cases hp : v.primary = true
    · rw [if_pos hp] at h
      cases seen with
      | true => simp at h
      | false =>
        rw [if_neg (by simp)] at h
        obtain ⟨hbound, hcount⟩ := ih (v :: acc) true out h
        simp only [List.countP_cons, hp, Bool.toNat_false, Bool.toNat_true,
          if_pos] at hbound hcount ⊢
        omega
    · rw [if_neg hp] at h
      obtain ⟨hbound, hcount⟩ := ih (acc ++ [v]) seen out h
      simp only [List.countP_cons, List.countP_append, hp,
        List.countP_nil] at hbound hcount ⊢
      simp only [Bool.false_eq_true, if_false] at hcount ⊢
      omega

/-- C7: an accepted definition has at most one watchdog, one memory
balloon, one RNG and one redirection filter (a second node of any of
these is rejected), and the accepted video list contains at most one
primary video (a second primary is rejected). -/
theorem virDomainDefSingletons_spec :
    (∀ (nodes : List VirDomainWatchdogDef) r,
      virDomainDefParseWatchdogs nodes = some r → nodes.length ≤ 1) ∧
    (∀ nodes : List VirDomainWatchdogDef, 2 ≤ nodes.length →
      virDomainDefParseWatchdogs nodes = none) ∧
    (∀ (nodes : List VirDomainMemballoonDef) r,
      virDomainDefParseMemballoons nodes = some r → nodes.length ≤ 1) ∧
    (∀ nodes : List VirDomainMemballoonDef, 2 ≤ nodes.length →
      virDomainDefParseMemballoons nodes = none) ∧
    (∀ (nodes : List VirDomainRNGDef) r,
      virDomainDefParseRNGs nodes = some r → nodes.length ≤ 1) ∧
    (∀ nodes : List VirDomainRNGDef, 2 ≤ nodes.length →
      virDomainDefParseRNGs nodes = none) ∧
    (∀ (nodes : List VirDomainRedirFilterDef) r,
      virDomainDefParseRedirFilters nodes = some r → nodes.length ≤ 1) ∧
    (∀ nodes : List VirDomainRedirFilterDef, 2 ≤ nodes.length →
      virDomainDefParseRedirFilters nodes = none) ∧
    (∀ (vs out : List VirDomainVideoDef),
      virDomainDefParseVideos vs = some out →
      vs.countP (fun v => v.primary) ≤ 1 ∧
      out.countP (fun v => v.primary) ≤ 1) ∧
    (∀ vs : List VirDomainVideoDef,
      2 ≤ vs.countP (fun v => v.primary) →
      virDomainDefParseVideos vs = none) := by
  refine ⟨?_, ?_, ?_, ?_, ?_, ?_, ?_, ?_, ?_, ?_⟩
  · intro nodes r h
    unfold virDomainDefParseWatchdogs at h
    split_ifs at h with h1
    omega
  · intro nodes h
    unfold virDomainDefParseWatchdogs
    rw [if_pos (by omega)]
  · intro nodes r h
    unfold virDomainDefParseMemballoons at h
    split_ifs at h with h1
    omega
  · intro nodes h
    unfold virDomainDefParseMemballoons
    rw [if_pos (by omega)]
  · intro nodes r h
    unfold virDomainDefParseRNGs at h
    split_ifs at h with h1
    omega
  · intro nodes h
    unfold virDomainDefParseRNGs
    rw [if_pos (by omega)]
  · intro nodes r h
    unfold virDomainDefParseRedirFilters at h
    split_ifs at h with h1
    omega
  · intro nodes h
    unfold virDomainDefParseRedirFilters
    rw [if_pos (by omega)]
  · intro vs out h
    obtain ⟨hbound, hcount⟩ :=
      virDomainDefParseVideosGo_spec vs [] false out h
    simp only [Bool.toNat_false, Nat.add_zero] at hbound
    simp only [List.countP_nil, Nat.zero_add] at hcount
    exact ⟨hbound, by omega⟩
  · intro vs h
    cases hout : virDomainDefParseVideos vs with
    | none => rfl
    | some out =>
      obtain ⟨hbound, _⟩ :=
        virDomainDefParseVideosGo_spec vs [] false out hout
      simp only [Bool.toNat_false, Nat.add_zero] at hbound
      omega

theorem virDomainDefSingletons_spec_witness :
    virDomainDefParseWatchdogs
      [({} : VirDomainWatchdogDef), {}] = none ∧
    virDomainDefParseVideos
      [({ primary := true } : VirDomainVideoDef),
       { primary := true }] = none :=
  ⟨virDomainDefSingletons_spec.2.1 [{}, {}] (by decide),
   virDomainDefSingletons_spec.2.2.2.2.2.2.2.2.2
     [{ primary := true }, { primary := true }] (by decide)⟩

/-! ### Disk target-name prefixes -/

/-- C8: a floppy-category disk whose target name does not start with
"fd" is rejected, and a disk- or LUN-category disk whose target name
does not start with one of "hd", "sd", "vd", "xvd", "ubd" is rejected;
in particular `device='floppy'` with `target dev='sda'` is rejected. -/
theorem virDomainDiskDefParseTargetCheck_spec :
    (∀ target : String, STRPFX target "fd" = false →
      virDomainDiskDefParseTargetCheck
        VIR_DOMAIN_DISK_DEVICE_FLOPPY target = false) ∧
    (∀ (device : Nat) (target : String),
      (device = VIR_DOMAIN_DISK_DEVICE_DISK ∨
       device = VIR_DOMAIN_DISK_DEVICE_LUN) →
      STRPFX target "hd" = false →
      STRPFX target "sd" = false →
      STRPFX target "vd" = false →
      STRPFX target "xvd" = false →
      STRPFX target "ubd" = false →
      virDomainDiskDefParseTargetCheck device target = false) ∧
    virDomainDiskDefParseTargetCheck
      VIR_DOMAIN_DISK_DEVICE_FLOPPY "sda" = false := by
  refine ⟨?_, ?_, ?_⟩
  · intro target h
    simp [virDomainDiskDefParseTargetCheck, h]
  · intro device target hdev h1 h2 h3 h4 h5
    rcases hdev with hdev | hdev <;> subst hdev <;>
      simp [virDomainDiskDefParseTargetCheck,
        VIR_DOMAIN_DISK_DEVICE_DISK, VIR_DOMAIN_DISK_DEVICE_LUN,
        VIR_DOMAIN_DISK_DEVICE_FLOPPY, h1, h2, h3, h4, h5]
  · decide

theorem virDomainDiskDefParseTargetCheck_spec_witness :
    virDomainDiskDefParseTargetCheck
      VIR_DOMAIN_DISK_DEVICE_FLOPPY "sda" = false :=
  virDomainDiskDefParseTargetCheck_spec.1 "sda" (by decide)

/-! ### Formatter flag separation -/

/-- C9: the three internal status-serialization flags are bitwise
disjoint from the public DUMPXML flag set, and the public
virDomainDefFormat entry point fails, producing no output, whenever any
flag outside the public set is passed — in particular for each internal
flag. -/
theorem virDomainDefFormat_flags_spec :
    ((VIR_DOMAIN_XML_INTERNAL_STATUS |||
      VIR_DOMAIN_XML_INTERNAL_ACTUAL_NET |||
      VIR_DOMAIN_XML_INTERNAL_PCI_ORIG_STATES) &&& DUMPXML_FLAGS = 0) ∧
    (∀ (d : VirDomainDef) (flags : Nat),
      flags &&& ((2 ^ 32 - 1) ^^^ DUMPXML_FLAGS) ≠ 0 →
      virDomainDefFormat d flags = none) ∧
    (∀ d : VirDomainDef,
      virDomainDefFormat d VIR_DOMAIN_XML_INTERNAL_STATUS = none ∧
      virDomainDefFormat d VIR_DOMAIN_XML_INTERNAL_ACTUAL_NET = none ∧
      virDomainDefFormat d VIR_DOMAIN_XML_INTERNAL_PCI_ORIG_STATES = none) := by
  refine ⟨by decide, ?_, ?_⟩
  · intro d flags h
    have h' : (flags &&& ((2 ^ 32 - 1) ^^^ DUMPXML_FLAGS) == 0) = false :=
      beq_eq_false_iff_ne.mpr h
    unfold virDomainDefFormat virCheckFlagsPass
    rw [h']
    simp
  · intro d
    refine ⟨?_, ?_, ?_⟩ <;>
      · unfold virDomainDefFormat virCheckFlagsPass
        rw [if_pos (by decide)]

theorem virDomainDefFormat_flags_spec_witness :
    virDomainDefFormat {} VIR_DOMAIN_XML_INTERNAL_STATUS = none :=
  virDomainDefFormat_flags_spec.2.1 {} VIR_DOMAIN_XML_INTERNAL_STATUS
    (by decide)

/-! ### Inactive projection forced for non-running definitions -/

theorem lor_land_right (a b c : Nat) :
    (a ||| b) &&& c = (a &&& c) ||| (b &&& c) := by
  apply Nat.eq_of_testBit_eq
  intro i
  simp only [Nat.testBit_land, Nat.testBit_lor]
  cases a.testBit i <;> cases b.testBit i <;> cases c.testBit i <;> rfl

theorem lor_lor_self (a b : Nat) : (a ||| b) ||| b = a ||| b := by
  apply Nat.eq_of_testBit_eq
  intro i
  simp only [Nat.testBit_lor]
  cases a.testBit i <;> cases b.testBit i <;> rfl

theorem lor_land_self (a b : Nat) : (a ||| b) &&& b = b := by
  apply Nat.eq_of_testBit_eq
  intro i
  simp only [Nat.testBit_land, Nat.testBit_lor]
  cases a.testBit i <;> cases b.testBit i <;> rfl

/-- C10: formatting a definition whose runtime id is -1 behaves as the
inactive projection regardless of the caller's flags: the output is the
same as with the inactive flag passed explicitly, the id attribute is
omitted, and the whole rest of the output is produced under a flag word
with the inactive bit set. -/
theorem virDomainDefFormatInternal_inactive (d : VirDomainDef)
    (flags : Nat) (h : d.id = -1) :
    virDomainDefFormatInternal d flags =
      virDomainDefFormatInternal d
        (flags ||| VIR_DOMAIN_XML_INACTIVE) ∧
    (∀ r, virDomainDefFormatInternal d flags = some r →
      r.idAttr = none ∧
      r.effFlags &&& VIR_DOMAIN_XML_INACTIVE = VIR_DOMAIN_XML_INACTIVE) := by
  have hid : (d.id == -1) = true := by simp [h]
  have hpass : ∀ allowed : Nat,
      VIR_DOMAIN_XML_INACTIVE &&& ((2 ^ 32 - 1) ^^^ allowed) = 0 →
      virCheckFlagsPass allowed (flags ||| VIR_DOMAIN_XML_INACTIVE) =
        virCheckFlagsPass allowed flags := by
    intro allowed hdisj
    unfold virCheckFlagsPass
    rw [lor_land_right, hdisj]
    simp
  constructor
  · unfold virDomainDefFormatInternal
    rw [hpass _ (by decide)]
    by_cases hc : virCheckFlagsPass
        (DUMPXML_FLAGS |||
         VIR_DOMAIN_XML_INTERNAL_STATUS |||
         VIR_DOMAIN_XML_INTERNAL_ACTUAL_NET |||
         VIR_DOMAIN_XML_INTERNAL_PCI_ORIG_STATES) flags = true
    · simp only [hc, Bool.not_true, Bool.false_eq_true, if_false, hid,
        if_true, lor_lor_self]
    · simp only [Bool.not_eq_true] at hc
      simp only [hc, Bool.not_false, if_true]
  · intro r hr
    unfold virDomainDefFormatInternal at hr
    split_ifs at hr with hc
    simp only [hid, if_true, Option.some.injEq] at hr
    subst hr
    constructor
    · have hbit : (flags ||| VIR_DOMAIN_XML_INACTIVE) &&&
          VIR_DOMAIN_XML_INACTIVE = VIR_DOMAIN_XML_INACTIVE :=
        lor_land_self _ _
      simp only [VIR_DOMAIN_XML_INACTIVE] at hbit
      simp [VIR_DOMAIN_XML_INACTIVE, hbit]
    · simp [lor_land_self]

theorem virDomainDefFormatInternal_inactive_witness :
    (⟨none, 2⟩ : VirDomainFormatHead).idAttr = none ∧
    (⟨none, 2⟩ : VirDomainFormatHead).effFlags &&&
      VIR_DOMAIN_XML_INACTIVE = VIR_DOMAIN_XML_INACTIVE :=
  (virDomainDefFormatInternal_inactive { id := -1 } 0 rfl).2
    ⟨none, 2⟩ (by decide)

/-! ### Device-info iteration order -/

theorem seqVisit_assoc (a b c : Bool × List DeviceVisit) :
    seqVisit (seqVisit a b) c = seqVisit a (seqVisit b c) := by
  obtain ⟨a1, a2⟩ := a
  obtain ⟨b1, b2⟩ := b
  obtain ⟨c1, c2⟩ := c
  cases a1 <;> cases b1 <;> simp [seqVisit]

theorem visitLoop_append (cb : DeviceVisit → Bool)
    (xs ys : List DeviceVisit) :
    visitLoop cb (xs ++ ys) =
      seqVisit (visitLoop cb xs) (visitLoop cb ys) := by
  induction xs with
  | nil => simp [visitLoop, seqVisit]
  | cons v vs ih =>
    cases hcb : cb v with
    | false => simp [visitLoop, hcb, seqVisit]
    | true =>
      simp only [List.cons_append, visitLoop, hcb, if_true, ih]
      rcases hvs : visitLoop cb vs with ⟨p1, p2⟩
      rcases hys : visitLoop cb ys with ⟨q1, q2⟩
      cases p1 <;> simp [seqVisit, ih, hvs, hys]

theorem visitLoop_all_true (cb : DeviceVisit → Bool)
    (L : List DeviceVisit) (h : ∀ v ∈ L, cb v = true) :
    visitLoop cb L = (true, L) := by
  induction L with
  | nil => rfl
  | cons v vs ih =>
    have hv : cb v = true := h v (by simp)
    simp [visitLoop, hv, ih (fun w hw => h w (by simp [hw]))]

theorem visitLoop_fst (cb : DeviceVisit → Bool) (L : List DeviceVisit) :
    (visitLoop cb L).1 = L.all cb := by
  induction L with
  | nil => rfl
  | cons v vs ih => cases hv : cb v <;> simp [visitLoop, hv, ih]

/-- C6: the iterator visits exactly the DeviceInfos of the flat,
documented order (disks, network interfaces, sound, host devices, video,
controllers, smartcards, serial, parallel, channel, console, input,
filesystem, watchdog, memory balloon, RNG, hub), each device once; with
`all` false the first console is skipped when its target type is serial
or unset and the OS type is "hvm"; it succeeds exactly when the visitor
accepted every entry, and it stops at and propagates the first visitor
failure (the visit list of a failed run ends at the failing device). -/
theorem virDomainDeviceInfoIterateInternal_spec (d : VirDomainDef)
    (cb : DeviceVisit → Bool) (all : Bool) :
    virDomainDeviceInfoIterateInternal d cb all =
      visitLoop cb (deviceInfoVisitOrder d all) ∧
    (virDomainDeviceInfoIterateInternal d cb all).1 =
      (deviceInfoVisitOrder d all).all cb ∧
    ((∀ v ∈ deviceInfoVisitOrder d all, cb v = true) →
      virDomainDeviceInfoIterateInternal d cb all =
        (true, deviceInfoVisitOrder d all)) := by
  have hmain : virDomainDeviceInfoIterateInternal d cb all =
      visitLoop cb (deviceInfoVisitOrder d all) := by
    unfold virDomainDeviceInfoIterateInternal deviceInfoVisitOrder
    simp only [visitLoop_append, seqVisit_assoc]
  refine ⟨hmain, ?_, ?_⟩
  · rw [hmain, visitLoop_fst]
  · intro hall
    rw [hmain, visitLoop_all_true cb _ hall]

theorem virDomainDeviceInfoIterateInternal_spec_witness :
    virDomainDeviceInfoIterateInternal sampleDomainDef
      (fun _ => true) false =
      (true, deviceInfoVisitOrder sampleDomainDef false) :=
  (virDomainDeviceInfoIterateInternal_spec sampleDomainDef
    (fun _ => true) false).2.2 (fun _ _ => rfl)

/-! ### Post-parse hook ordering -/

/-- C5 counterexample: on a definition with one disk and both driver
callbacks supplied (always succeeding), the post-parse trace invokes the
whole-definition callback before the per-device broadcast, refuting the
claimed order (per-device callbacks first). -/
theorem virDomainDefPostParse_order_cex :
    ¬ devicesPrecedeDomainCB
        (virDomainDefPostParse (some fun _ => true)
          (some fun _ _ => true) sampleDomainDef).2 := by
  intro hcl
  exact absurd
    (hcl ⟨VIR_DOMAIN_DEVICE_DISK, {}⟩ (by decide) (by decide))
    (by decide)

/-- C5 (amended): after structural parsing, the post-parse phase runs the
driver-supplied whole-definition callback first, then broadcasts the
driver-supplied per-device callback over every device (`all` true), then
runs the built-in internal compatibility pass; the first callback
failure aborts the phase, truncating all later invocations. -/
theorem virDomainDefPostParse_order
    (domainCB : Option (VirDomainDef → Bool))
    (deviceCB : Option (VirDomainDef → DeviceVisit → Bool))
    (d : VirDomainDef) :
    virDomainDefPostParse domainCB deviceCB d =
      (let domOk := match domainCB with
        | some f => f d
        | none => true
       let r := virDomainDeviceInfoIterateInternal d
         (virDomainDeviceDefPostParse deviceCB d) true
       ((domOk && r.1 && virDomainDefPostParseInternal d),
        (match domainCB with
         | some _ => [PPEvent.domainCB]
         | none => []) ++
        (if domOk then r.2.map PPEvent.deviceCB else []) ++
        (if domOk && r.1 then [PPEvent.internalPass] else []))) := by
  cases domainCB with
  | none =>
    simp only [virDomainDefPostParse,
      virDomainDefPostParseDevicesAndInternal]
    rcases hr : virDomainDeviceInfoIterateInternal d
      (virDomainDeviceDefPostParse deviceCB d) true with ⟨ok, visits⟩
    cases ok <;> simp
  | some f =>
    cases hf : f d with
    | false => simp [virDomainDefPostParse, hf]
    | true =>
      simp only [virDomainDefPostParse, hf, if_true,
        virDomainDefPostParseDevicesAndInternal]
      rcases hr : virDomainDeviceInfoIterateInternal d
        (virDomainDeviceDefPostParse deviceCB d) true with ⟨ok, visits⟩
      cases ok <;> simp

end DomainConf
